import Mathlib

/-!
# Verification of the sticky kernel-manager core (DarkPyonix_km/manager.py)

A shallow embedding of the reuse-decision logic of
`StickyMappingKernelManager`.  Pure Python helpers (`_abs_norm`,
`_pick_path_from_kwargs`, `_stable_kernel_id`, `_namespace`, `_propose_id`)
become Lean functions; the effectful entry points `start_kernel` /
`start_kernel_async` become functions from an explicit environment
(`Sys`: the external collaborators — `uuid.uuid5`, `uuid.UUID` parsing,
`os.environ`, the filesystem) and an explicit manager state (`StickyState`:
the live-kernel registry `self._kernels` and the probed
`self.parent.root_dir`) to the single observable action each of them
performs: either return an existing identity without calling the superclass
(`StartAction.reuse`) or delegate to `super().start_kernel` /
`super().start_kernel_async` with a chosen identity and the (possibly
path-rewritten) keyword arguments (`StartAction.delegate`).  Logging calls
have no observable effect and are dropped.
-/

namespace DarkPyonix

/-! ## Models of the Python standard-library functions the code calls -/

/-- Model of the slash replacement step of `ntpath.normcase`
(`s.replace('/', '\\')`), one character at a time. -/
def slashChar (c : Char) : Char := if c = '/' then '\\' else c

/-- ASCII lowering of a whole string (`str.lower` as used by
`os.path.normcase`; `Char.toLower` is exactly the ASCII rule). -/
def strLower (s : String) : String := ⟨s.data.map Char.toLower⟩

/-- Model of Windows `os.path.normcase`: replace `/` by `\` then lowercase
(`ntpath.normcase(s) = s.replace('/', '\\').lower()`). -/
def normcase (s : String) : String := ⟨(s.data.map slashChar).map Char.toLower⟩

/-- Model of `os.path.isabs` (POSIX rule: path starts with a slash). -/
def isAbs (s : String) : Bool := s.data.head? = some '/'

/-- Model of `os.path.join` for two components (POSIX rule: return `p` when
it is absolute; otherwise append it to `base`, inserting a slash unless
`base` is empty or already ends in one). -/
def pathJoin (base p : String) : String :=
  if isAbs p then p
  else if base = "" then base ++ p
  else if base.data.getLast? = some '/' then base ++ p
  else base ++ "/" ++ p

/-- The filesystem environment `_abs_norm` consults: the process working
directory (`os.getcwd()`), the combined `os.path.abspath ∘ os.path.realpath`
canonicalization (symlink and `.`/`..` resolution — external filesystem
state, kept abstract), and whether the platform is Windows
(`os.name == "nt"`). -/
structure FileSystem where
  cwd : String
  resolve : String → String
  isNt : Bool

/-- Embedding of `_abs_norm(root_dir, raw_path)` (manager.py lines 19-37).
An absent (`None`) raw path and the empty string are both falsy in Python
and are modelled by `""`.  `root_dir or os.getcwd()` treats `None` and `""`
as falsy. -/
def _abs_norm (fs : FileSystem) (root_dir : Option String) (raw_path : String) : String :=
  if raw_path = "" then ""
  else
    let base := match root_dir with
      | none => fs.cwd
      | some r => if r = "" then fs.cwd else r
    let p := if isAbs raw_path then raw_path else pathJoin base raw_path
    let q := fs.resolve p
    if fs.isNt then normcase q else q

/-- The keyword arguments of a start request.  The four keys the code reads
are explicit fields; `env` is the optional `env` mapping, modelled as an
association list (only `JPY_SESSION_NAME` and `NOTEBOOK_PATH` are ever
consulted).  All other kwargs are passed through opaquely and play no role
in the decision, so they are not represented.  A missing key and an
explicit `None` value are both modelled by `none`. -/
structure Kwargs where
  kernel_id : Option String := none
  kernel_name : Option String := none
  path : Option String := none
  env : Option (List (String × String)) := none
deriving DecidableEq, Repr

/-- Python's falsy-coalescing `a or b` for an optional string `a`
(`None` and `""` are falsy). -/
def pyOrStr (a : Option String) (b : String) : String :=
  match a with
  | none => b
  | some s => if s = "" then b else s

/-- Embedding of `_pick_path_from_kwargs(kwargs)` (manager.py lines 39-58):
`kwargs.get("path") or ""`, else
`(kwargs.get("env") or {}).get("JPY_SESSION_NAME") or env.get("NOTEBOOK_PATH") or ""`. -/
def _pick_path_from_kwargs (kwargs : Kwargs) : String :=
  let raw := pyOrStr kwargs.path ""
  if raw ≠ "" then raw
  else
    let env := kwargs.env.getD []
    pyOrStr (env.lookup "JPY_SESSION_NAME") (pyOrStr (env.lookup "NOTEBOOK_PATH") "")

/-- `DEFAULT_NAMESPACE = uuid.UUID("f2a57b34-7b27-43e9-87fd-1b7e9f9d5d6a")`
(manager.py line 16), as the 128-bit value of that UUID. -/
def DEFAULT_NAMESPACE : Nat := 0xf2a57b347b2743e987fd1b7e9f9d5d6a

/-- The external collaborators of the manager: `uuid.uuid5` (a namespace and
a name string to a UUID string — kept abstract, the code relies only on its
determinism), the `uuid.UUID` string parser (`none` models a raised
`ValueError`), `os.environ.get`, and the filesystem. -/
structure Sys where
  uuid5 : Nat → String → String
  parseUUID : String → Option Nat
  osEnviron : String → Option String
  fs : FileSystem

/-- Embedding of `_stable_kernel_id(abs_path, kernel_name, ns)`
(manager.py lines 60-72): `str(uuid.uuid5(ns, f"{abs_path}|{kernel_name}"))`. -/
def _stable_kernel_id (uuid5 : Nat → String → String)
    (abs_path : String) (kernel_name : String) (ns : Nat) : String :=
  uuid5 ns (abs_path ++ "|" ++ kernel_name)

/-- Embedding of `_namespace()` (manager.py lines 74-85): read
`STICKYKM_NAMESPACE` from the environment on every call; absent, empty
(falsy) or unparsable values fall back to `DEFAULT_NAMESPACE`
(`uuid.UUID(v)` raising is modelled by `parseUUID v = none`). -/
def _namespace (sys : Sys) : Nat :=
  match sys.osEnviron "STICKYKM_NAMESPACE" with
  | none => DEFAULT_NAMESPACE
  | some v =>
    if v = "" then DEFAULT_NAMESPACE
    else match sys.parseUUID v with
      | some u => u
      | none => DEFAULT_NAMESPACE

/-- A running-kernel handle as the coordinator sees it: the result of the
`km.is_alive()` probe, with `none` modelling a raised exception. -/
structure KernelHandle where
  is_alive : Option Bool
deriving DecidableEq, Repr

/-- The mutable state the coordinator reads: `self._kernels` (the
live-kernel registry owned by the underlying `MappingKernelManager`,
an association list from kernel id to handle) and the probed
`getattr(self.parent, "root_dir", None)`. -/
structure StickyState where
  kernels : List (String × KernelHandle)
  root_dir : Option String

/-- Embedding of `self._propose_id(abs_path, kernel_name)`
(manager.py lines 116-127): `_stable_kernel_id(abs_path, kernel_name, _namespace())`. -/
def _propose_id (sys : Sys) (abs_path kernel_name : String) : String :=
  _stable_kernel_id sys.uuid5 abs_path kernel_name (_namespace sys)

/-- The observable action of one `start_kernel` call: either return an
existing identity without invoking the superclass (`reuse`), or invoke
`super().start_kernel(kernel_id=kernel_id, **kwargs)` with the given
identity and keyword arguments and return its result (`delegate`). -/
inductive StartAction where
  | reuse (kernel_id : String)
  | delegate (kernel_id : Option String) (kwargs : Kwargs)
deriving DecidableEq, Repr

/-- Embedding of `StickyMappingKernelManager.start_kernel(**kwargs)`
(manager.py lines 129-176): pop `kernel_id`, read `kernel_name` (default
`"python3"`), extract and canonicalize the path, overwrite `kwargs["path"]`
when a canonical path was obtained, and run the reuse logic; the
`try/except` around `km.is_alive()` that assumes alive on failure is
`Option.getD true`.  Logging calls are dropped. -/
def start_kernel (sys : Sys) (st : StickyState) (kwargs0 : Kwargs) : StartAction :=
  let kernel_id := kwargs0.kernel_id
  let kwargs : Kwargs := { kwargs0 with kernel_id := none }
  let kernel_name := kwargs.kernel_name.getD "python3"
  let raw_path := _pick_path_from_kwargs kwargs
  let abs_path := _abs_norm sys.fs st.root_dir raw_path
  let kwargs := if abs_path ≠ "" then { kwargs with path := some abs_path } else kwargs
  if kernel_id = none ∧ abs_path ≠ "" then
    let proposed := _propose_id sys abs_path kernel_name
    match st.kernels.lookup proposed with
    | some km =>
      let alive := km.is_alive.getD true
      if alive then StartAction.reuse proposed
      else StartAction.delegate (some proposed) kwargs
    | none => StartAction.delegate (some proposed) kwargs
  else StartAction.delegate kernel_id kwargs

/-- Embedding of `StickyMappingKernelManager.start_kernel_async(**kwargs)`
(manager.py lines 178-223).  The async body differs from the sync one only
in logging text and in awaiting `super().start_kernel_async`; its decision
logic is translated here independently, line by line, from the async
source. -/
def start_kernel_async (sys : Sys) (st : StickyState) (kwargs0 : Kwargs) : StartAction :=
  let kernel_id := kwargs0.kernel_id
  let kwargs : Kwargs := { kwargs0 with kernel_id := none }
  let kernel_name := kwargs.kernel_name.getD "python3"
  let raw_path := _pick_path_from_kwargs kwargs
  let abs_path := _abs_norm sys.fs st.root_dir raw_path
  let kwargs := if abs_path ≠ "" then { kwargs with path := some abs_path } else kwargs
  if kernel_id = none ∧ abs_path ≠ "" then
    let proposed := _propose_id sys abs_path kernel_name
    match st.kernels.lookup proposed with
    | some km =>
      let alive := km.is_alive.getD true
      if alive then StartAction.reuse proposed
      else StartAction.delegate (some proposed) kwargs
    | none => StartAction.delegate (some proposed) kwargs
  else StartAction.delegate kernel_id kwargs

/-- The canonical path a request resolves to: `_abs_norm` of
`_pick_path_from_kwargs`, exactly as composed inside `start_kernel`. -/
def requestPath (sys : Sys) (st : StickyState) (kwargs : Kwargs) : String :=
  _abs_norm sys.fs st.root_dir (_pick_path_from_kwargs kwargs)

/-- The keyword arguments as both entry points forward them to the underlying
start operation: `kernel_id` popped, and `kwargs["path"]` overwritten with the
canonical path when one was obtained (manager.py lines 144-154 / 193-203). -/
def rewrittenKwargs (sys : Sys) (st : StickyState) (kwargs : Kwargs) : Kwargs :=
  let abs_path := requestPath sys st kwargs
  if abs_path ≠ "" then { kwargs with kernel_id := none, path := some abs_path }
  else { kwargs with kernel_id := none }

/-! ## General lemmas -/

/-- Popping `kernel_id` does not change which path is extracted:
`_pick_path_from_kwargs` reads only the `path` and `env` keys. -/
theorem pick_path_pop_kernel_id (kwargs : Kwargs) :
    _pick_path_from_kwargs { kwargs with kernel_id := none } = _pick_path_from_kwargs kwargs := rfl

/-- Evaluating `Char.ofNat` at a valid codepoint recovers the codepoint. -/
theorem toNat_ofNat_of_valid (n : Nat) (h : n.isValidChar) : (Char.ofNat n).toNat = n := by
  rw [Char.ofNat, dif_pos h]
  rfl

/-- ASCII lowering sends only `/` to `/` (its codepoint 47 is not the image
of any uppercase letter). -/
theorem toLower_eq_slash {c : Char} (h : Char.toLower c = '/') : c = '/' := by
  simp only [Char.toLower] at h
  split at h
  · exfalso
    rename_i hc
    have hv : Nat.isValidChar (c.toNat + 32) := Or.inl (by omega)
    have h2 := congrArg Char.toNat h
    rw [toNat_ofNat_of_valid _ hv] at h2
    have h47 : ('/' : Char).toNat = 47 := rfl
    omega
  · exact h

/-- Two character lists equal after lowering start with `/` together. -/
theorem head_slash_of_lower_eq {l1 l2 : List Char}
    (h : l1.map Char.toLower = l2.map Char.toLower)
    (hh : l1.head? = some '/') : l2.head? = some '/' := by
  have h' := congrArg List.head? h
  rw [List.head?_map, List.head?_map, hh] at h'
  cases hl2 : l2.head? with
  | none => rw [hl2] at h'; simp at h'
  | some c =>
    rw [hl2] at h'
    have h'' : some (Char.toLower '/') = some (Char.toLower c) := h'
    have hlc : Char.toLower c = '/' := (Option.some_inj.mp h'').symm
    rw [toLower_eq_slash hlc]

/-- `os.path.isabs` agrees on strings that differ only in character case. -/
theorem isAbs_congr_lower {s1 s2 : String} (h : strLower s1 = strLower s2) :
    isAbs s1 = isAbs s2 := by
  have hd : s1.data.map Char.toLower = s2.data.map Char.toLower :=
    congrArg String.data h
  simp only [isAbs]
  by_cases h1 : s1.data.head? = some '/'
  · rw [h1, head_slash_of_lower_eq hd h1]
  · have h2 : ¬ s2.data.head? = some '/' := fun hx => h1 (head_slash_of_lower_eq hd.symm hx)
    simp [h1, h2]

/-- Lowering distributes over string append. -/
theorem strLower_append (a b : String) : strLower (a ++ b) = strLower a ++ strLower b := by
  simp [strLower, String.ext_iff]

/-- Lowering detects emptiness. -/
theorem strLower_empty_iff (s : String) : strLower s = "" ↔ s = "" := by
  constructor <;> intro h
  · have := congrArg String.data h
    simp only [strLower] at this
    rw [String.ext_iff]
    simpa using this
  · rw [h]; rfl

/-- `os.path.join` with a fixed base preserves case-equivalence. -/
theorem pathJoin_congr_lower (base : String) {p1 p2 : String}
    (h : strLower p1 = strLower p2) :
    strLower (pathJoin base p1) = strLower (pathJoin base p2) := by
  simp only [pathJoin, isAbs_congr_lower h]
  by_cases ha : isAbs p2
  · simp [ha, h]
  · simp only [ha, Bool.false_eq_true, if_false]
    by_cases hb : base = ""
    · simp [hb, strLower_append, h]
    · by_cases hl : base.data.getLast? = some '/' <;>
        simp [hb, hl, strLower_append, h]

/-- The lowering applied after the slash-replacement step of `normcase` is a
congruence for lowering: the only character pair identified by lowering and
separated by the slash test would have to contain `/` itself, whose lowering
is fixed. -/
theorem lower_slash_map_congr {l1 l2 : List Char}
    (h : l1.map Char.toLower = l2.map Char.toLower) :
    (l1.map slashChar).map Char.toLower = (l2.map slashChar).map Char.toLower := by
  induction l1 generalizing l2 with
  | nil =>
    cases l2 with
    | nil => rfl
    | cons b t2 => simp at h
  | cons a t ih =>
    cases l2 with
    | nil => simp at h
    | cons b t2 =>
      simp only [List.map_cons, List.cons.injEq] at h ⊢
      obtain ⟨h1, h2⟩ := h
      refine ⟨?_, ih h2⟩
      by_cases ha : a = '/'
      · subst ha
        have hb : b = '/' := toLower_eq_slash h1.symm
        subst hb
        rfl
      · by_cases hb : b = '/'
        · subst hb
          exact absurd (toLower_eq_slash h1) ha
        · simp [slashChar, ha, hb, h1]

/-- Windows `normcase` agrees on strings that differ only in character case. -/
theorem normcase_congr_lower {s1 s2 : String} (h : strLower s1 = strLower s2) :
    normcase s1 = normcase s2 := by
  have hd : s1.data.map Char.toLower = s2.data.map Char.toLower :=
    congrArg String.data h
  simp only [normcase, String.ext_iff]
  simpa using lower_slash_map_congr hd

/-! ## Claims -/

/-- C6: the synchronous and asynchronous entry points implement the identical
decision protocol: on every environment, manager state and parameter set they
produce the same action — the same reuse-or-delegate decision, the same chosen
identity and the same (canonical-path-rewritten) keyword arguments for the
underlying start operation.  The two Python bodies differ only in logging and
in awaiting the delegate. -/
theorem sync_async_same_protocol (sys : Sys) (st : StickyState) (kwargs : Kwargs) :
    start_kernel sys st kwargs = start_kernel_async sys st kwargs := rfl

/-- C1: with no explicit `kernel_id`, a non-empty canonical path, the proposed
identity registered in `self._kernels`, and a liveness probe answering alive,
both entry points return the proposed identity as a reuse and do not invoke the
underlying start operation. -/
theorem reuse_when_registered_alive (sys : Sys) (st : StickyState) (kwargs : Kwargs)
    (km : KernelHandle)
    (hid : kwargs.kernel_id = none)
    (hpath : requestPath sys st kwargs ≠ "")
    (hmem : st.kernels.lookup
      (_propose_id sys (requestPath sys st kwargs) (kwargs.kernel_name.getD "python3")) = some km)
    (halive : km.is_alive = some true) :
    start_kernel sys st kwargs
      = StartAction.reuse
          (_propose_id sys (requestPath sys st kwargs) (kwargs.kernel_name.getD "python3"))
    ∧ start_kernel_async sys st kwargs
      = StartAction.reuse
          (_propose_id sys (requestPath sys st kwargs) (kwargs.kernel_name.getD "python3")) := by
  simp only [requestPath] at hpath hmem
  refine ⟨?_, ?_⟩ <;>
  · simp only [start_kernel, start_kernel_async, pick_path_pop_kernel_id, hid]
    rw [if_pos ⟨trivial, hpath⟩]
    simp only [hmem, halive, Option.getD_some, if_pos]
    rfl

/-- C2: in the reuse branch (no explicit `kernel_id`, non-empty canonical path,
proposed identity registered), a liveness probe that raises — modelled by
`km.is_alive = none`, absorbed by the `try/except` into `alive = True` — is
treated as alive: both entry points still return the proposed identity as a
reuse and no exception escapes (the embedding of the whole call is a total
function into `StartAction`; the probe failure never reaches the caller). -/
theorem liveness_failure_treated_as_alive (sys : Sys) (st : StickyState) (kwargs : Kwargs)
    (km : KernelHandle)
    (hid : kwargs.kernel_id = none)
    (hpath : requestPath sys st kwargs ≠ "")
    (hmem : st.kernels.lookup
      (_propose_id sys (requestPath sys st kwargs) (kwargs.kernel_name.getD "python3")) = some km)
    (hraises : km.is_alive = none) :
    start_kernel sys st kwargs
      = StartAction.reuse
          (_propose_id sys (requestPath sys st kwargs) (kwargs.kernel_name.getD "python3"))
    ∧ start_kernel_async sys st kwargs
      = StartAction.reuse
          (_propose_id sys (requestPath sys st kwargs) (kwargs.kernel_name.getD "python3")) := by
  simp only [requestPath] at hpath hmem
  refine ⟨?_, ?_⟩ <;>
  · simp only [start_kernel, start_kernel_async, pick_path_pop_kernel_id, hid]
    rw [if_pos ⟨trivial, hpath⟩]
    simp only [hmem, hraises, Option.getD_none, if_pos]
    rfl

/-- C3: a request carrying an explicit `kernel_id` override bypasses the reuse
logic entirely: both entry points delegate directly to the underlying start
operation with exactly that identity (and the path-rewritten kwargs), and the
outcome is independent of the registry contents and of every handle's liveness
— no membership test or liveness probe can influence it. -/
theorem explicit_kernel_id_bypasses_reuse (sys : Sys) (st : StickyState) (kwargs : Kwargs)
    (kid : String) (hid : kwargs.kernel_id = some kid) :
    start_kernel sys st kwargs
      = StartAction.delegate (some kid) (rewrittenKwargs sys st kwargs)
    ∧ start_kernel_async sys st kwargs
      = StartAction.delegate (some kid) (rewrittenKwargs sys st kwargs)
    ∧ ∀ kernels' : List (String × KernelHandle),
        start_kernel sys { st with kernels := kernels' } kwargs
          = start_kernel sys st kwargs := by
  have main : ∀ ks : List (String × KernelHandle),
      start_kernel sys { st with kernels := ks } kwargs
        = StartAction.delegate (some kid) (rewrittenKwargs sys st kwargs) := by
    intro ks
    simp only [start_kernel, pick_path_pop_kernel_id, hid, rewrittenKwargs, requestPath]
    rw [if_neg (by simp)]
  have hst : st = { st with kernels := st.kernels } := rfl
  refine ⟨hst ▸ main st.kernels, ?_, fun ks => (main ks).trans (hst ▸ main st.kernels).symm⟩
  have := main st.kernels
  rw [← hst] at this
  exact this.trans rfl

/-- C4: with no explicit `kernel_id` and a non-empty canonical path, both when
the proposed identity is registered but the liveness probe answers not-alive,
and when it is not registered at all, both entry points delegate to the
underlying start operation with the proposed identity as the `kernel_id` to
assign (a replacement keeping the same identity, never a fresh random one). -/
theorem dead_or_absent_starts_under_proposed_id (sys : Sys) (st : StickyState) (kwargs : Kwargs)
    (hid : kwargs.kernel_id = none)
    (hpath : requestPath sys st kwargs ≠ "") :
    (∀ km : KernelHandle,
      st.kernels.lookup
        (_propose_id sys (requestPath sys st kwargs) (kwargs.kernel_name.getD "python3"))
        = some km →
      km.is_alive = some false →
      start_kernel sys st kwargs
        = StartAction.delegate
            (some (_propose_id sys (requestPath sys st kwargs) (kwargs.kernel_name.getD "python3")))
            (rewrittenKwargs sys st kwargs)
      ∧ start_kernel_async sys st kwargs
        = StartAction.delegate
            (some (_propose_id sys (requestPath sys st kwargs) (kwargs.kernel_name.getD "python3")))
            (rewrittenKwargs sys st kwargs))
    ∧ (st.kernels.lookup
        (_propose_id sys (requestPath sys st kwargs) (kwargs.kernel_name.getD "python3"))
        = none →
      start_kernel sys st kwargs
        = StartAction.delegate
            (some (_propose_id sys (requestPath sys st kwargs) (kwargs.kernel_name.getD "python3")))
            (rewrittenKwargs sys st kwargs)
      ∧ start_kernel_async sys st kwargs
        = StartAction.delegate
            (some (_propose_id sys (requestPath sys st kwargs) (kwargs.kernel_name.getD "python3")))
            (rewrittenKwargs sys st kwargs)) := by
  simp only [requestPath] at hpath ⊢
  constructor
  · intro km hmem hdead
    refine ⟨?_, ?_⟩ <;>
    · simp only [start_kernel, start_kernel_async, pick_path_pop_kernel_id, hid]
      rw [if_pos ⟨trivial, hpath⟩]
      simp only [hmem, hdead, Option.getD_some, if_neg, rewrittenKwargs, requestPath]
      rw [if_pos hpath]
      rfl
  · intro hmem
    refine ⟨?_, ?_⟩ <;>
    · simp only [start_kernel, start_kernel_async, pick_path_pop_kernel_id, hid]
      rw [if_pos ⟨trivial, hpath⟩]
      simp only [hmem, rewrittenKwargs, requestPath]

/-- C5: the proposed identity is a deterministic function of exactly the
canonical path, the kernel-type tag and the namespace.  Two start requests —
with arbitrary, possibly different environments, manager states, `env`
mappings and every other parameter — whose canonical paths, kernel names and
resolved namespaces agree produce the same proposed identity (given the same
deterministic `uuid.uuid5`); in particular any two raw paths normalizing to
the same canonical path yield the same identity, and no user/session/tenant
input enters the computation. -/
theorem proposed_id_depends_only_on_path_kernel_ns
    (sys1 sys2 : Sys) (st1 st2 : StickyState) (kw1 kw2 : Kwargs)
    (huuid : sys1.uuid5 = sys2.uuid5)
    (hns : _namespace sys1 = _namespace sys2)
    (hpath : requestPath sys1 st1 kw1 = requestPath sys2 st2 kw2)
    (hname : kw1.kernel_name.getD "python3" = kw2.kernel_name.getD "python3") :
    _propose_id sys1 (requestPath sys1 st1 kw1) (kw1.kernel_name.getD "python3")
      = _propose_id sys2 (requestPath sys2 st2 kw2) (kw2.kernel_name.getD "python3") := by
  simp only [_propose_id, _stable_kernel_id, huuid, hns, hpath, hname]

/-- C7: path extraction follows the exact precedence — a non-empty explicit
`path` first, else a non-empty `env["JPY_SESSION_NAME"]`, else a non-empty
`env["NOTEBOOK_PATH"]`, else the empty string — and when the extracted path
is empty, no reuse is attempted: both entry points delegate to the underlying
manager with whatever `kernel_id` was supplied (possibly `none`, letting the
manager generate one) and the kwargs otherwise untouched. -/
theorem pick_path_precedence_and_empty_no_reuse
    (sys : Sys) (st : StickyState) (kwargs : Kwargs) :
    (∀ p, kwargs.path = some p → p ≠ "" → _pick_path_from_kwargs kwargs = p)
    ∧ ((kwargs.path = none ∨ kwargs.path = some "") →
        ∀ s, (kwargs.env.getD []).lookup "JPY_SESSION_NAME" = some s → s ≠ "" →
          _pick_path_from_kwargs kwargs = s)
    ∧ ((kwargs.path = none ∨ kwargs.path = some "") →
        ((kwargs.env.getD []).lookup "JPY_SESSION_NAME" = none
          ∨ (kwargs.env.getD []).lookup "JPY_SESSION_NAME" = some "") →
        ∀ s, (kwargs.env.getD []).lookup "NOTEBOOK_PATH" = some s → s ≠ "" →
          _pick_path_from_kwargs kwargs = s)
    ∧ ((kwargs.path = none ∨ kwargs.path = some "") →
        ((kwargs.env.getD []).lookup "JPY_SESSION_NAME" = none
          ∨ (kwargs.env.getD []).lookup "JPY_SESSION_NAME" = some "") →
        ((kwargs.env.getD []).lookup "NOTEBOOK_PATH" = none
          ∨ (kwargs.env.getD []).lookup "NOTEBOOK_PATH" = some "") →
        _pick_path_from_kwargs kwargs = "")
    ∧ (_pick_path_from_kwargs kwargs = "" →
        start_kernel sys st kwargs
          = StartAction.delegate kwargs.kernel_id { kwargs with kernel_id := none }
        ∧ start_kernel_async sys st kwargs
          = StartAction.delegate kwargs.kernel_id { kwargs with kernel_id := none }) := by
  refine ⟨?_, ?_, ?_, ?_, ?_⟩
  · intro p hp hne
    simp [_pick_path_from_kwargs, pyOrStr, hp, hne]
  · rintro (hp | hp) s hs hne <;>
      simp [_pick_path_from_kwargs, pyOrStr, hp, hs, hne]
  · rintro (hp | hp) (hj | hj) s hs hne <;>
      simp [_pick_path_from_kwargs, pyOrStr, hp, hj, hs, hne]
  · rintro (hp | hp) (hj | hj) (hn | hn) <;>
      simp [_pick_path_from_kwargs, pyOrStr, hp, hj, hn]
  · intro hempty
    have habs : _abs_norm sys.fs st.root_dir (_pick_path_from_kwargs kwargs) = "" := by
      rw [hempty]
      simp [_abs_norm]
    refine ⟨?_, ?_⟩ <;>
    · simp only [start_kernel, start_kernel_async, pick_path_pop_kernel_id, habs]
      simp

/-- C8: the namespace is re-read from `STICKYKM_NAMESPACE` on every identity
resolution — `_propose_id` recomputes `_namespace` from the environment value
current at that call, and `_namespace` is a function of only that value and
the parser — and when the variable is absent or its value unparsable as a
UUID, resolution silently uses `DEFAULT_NAMESPACE` (the function is total:
no error is surfaced). -/
theorem namespace_per_call_with_default_fallback (sys : Sys) :
    (sys.osEnviron "STICKYKM_NAMESPACE" = none → _namespace sys = DEFAULT_NAMESPACE)
    ∧ (∀ v, sys.osEnviron "STICKYKM_NAMESPACE" = some v → sys.parseUUID v = none →
        _namespace sys = DEFAULT_NAMESPACE)
    ∧ (∀ abs_path kernel_name, _propose_id sys abs_path kernel_name
        = _stable_kernel_id sys.uuid5 abs_path kernel_name (_namespace sys))
    ∧ (∀ sys2 : Sys, sys2.osEnviron "STICKYKM_NAMESPACE" = sys.osEnviron "STICKYKM_NAMESPACE" →
        sys2.parseUUID = sys.parseUUID → _namespace sys2 = _namespace sys) := by
  refine ⟨?_, ?_, fun _ _ => rfl, ?_⟩
  · intro h
    simp [_namespace, h]
  · intro v hv hparse
    by_cases hemp : v = "" <;> simp [_namespace, hv, hparse, hemp]
  · intro sys2 henv hparse
    rw [_namespace, _namespace, henv, hparse]
/-- C9: on a case-insensitive filesystem (`os.name == "nt"`, so Windows case
normalization is applied, and canonicalization respects case-equivalence),
any two non-empty raw paths that differ only in character case are collapsed
by `_abs_norm` to the same canonical absolute form, and hence map to the same
proposed kernel identity for every kernel name and environment. -/
theorem case_variants_collapse (fs : FileSystem) (root_dir : Option String)
    (raw1 raw2 : String)
    (hnt : fs.isNt = true)
    (hres : ∀ a b : String, strLower a = strLower b →
      strLower (fs.resolve a) = strLower (fs.resolve b))
    (hcase : strLower raw1 = strLower raw2)
    (h1 : raw1 ≠ "") (h2 : raw2 ≠ "") :
    _abs_norm fs root_dir raw1 = _abs_norm fs root_dir raw2
    ∧ ∀ (sys : Sys) (kernel_name : String),
        _propose_id sys (_abs_norm fs root_dir raw1) kernel_name
          = _propose_id sys (_abs_norm fs root_dir raw2) kernel_name := by
  have habs : _abs_norm fs root_dir raw1 = _abs_norm fs root_dir raw2 := by
    rw [_abs_norm.eq_def, _abs_norm.eq_def, if_neg h1, if_neg h2, hnt]
    apply normcase_congr_lower
    apply hres
    rw [isAbs_congr_lower hcase]
    by_cases ha : isAbs raw2
    · simp only [ha, if_true]
      exact hcase
    · simp only [ha, Bool.false_eq_true, if_false]
      exact pathJoin_congr_lower _ hcase
  exact ⟨habs, fun sys kernel_name => by rw [habs]⟩

/-- C10: the encoding of (absolute path, kernel type) into the `uuid5` name
string — path, `"|"`, kernel type concatenated — is not injective: the two
distinct pairs `("a|b", "c")` and `("a", "b|c")` concatenate to the identical
string, hence `_stable_kernel_id` gives them the identical kernel identity
under every namespace and every hash function. -/
theorem stable_id_encoding_not_injective :
    (("a|b", "c") : String × String) ≠ ("a", "b|c")
    ∧ ("a|b" ++ "|" ++ "c" : String) = "a" ++ "|" ++ "b|c"
    ∧ ∀ (uuid5 : Nat → String → String) (ns : Nat),
        _stable_kernel_id uuid5 "a|b" "c" ns = _stable_kernel_id uuid5 "a" "b|c" ns := by
  refine ⟨by decide, by decide, fun uuid5 ns => ?_⟩
  simp only [_stable_kernel_id]
  congr 1
/-! ## Concrete instantiations -/

/-- A POSIX-style test filesystem: canonicalization is the identity. -/
def idFS : FileSystem := { cwd := "/cwd", resolve := id, isNt := false }

/-- A Windows-style test filesystem: case normalization applies. -/
def ntFS : FileSystem := { cwd := "/cwd", resolve := id, isNt := true }

/-- A test environment: a deterministic hash that echoes its name string,
no parsable namespace values, an empty process environment. -/
def plainSys : Sys :=
  { uuid5 := fun _ s => s, parseUUID := fun _ => none, osEnviron := fun _ => none, fs := idFS }

/-- A test environment whose `STICKYKM_NAMESPACE` holds a malformed value. -/
def badNsSys : Sys :=
  { uuid5 := fun _ s => s, parseUUID := fun _ => none,
    osEnviron := fun k => if k = "STICKYKM_NAMESPACE" then some "not-a-uuid" else none,
    fs := idFS }

/-- A start request for the notebook `/nb/a.ipynb` with no explicit id. -/
def kwA : Kwargs := { path := some "/nb/a.ipynb" }

/-- The same request with an unrelated extra `env` entry. -/
def kwAEnv : Kwargs := { path := some "/nb/a.ipynb", env := some [("USER", "alice")] }

/-- The same request carrying an explicit `kernel_id` override. -/
def kwAOverride : Kwargs := { kernel_id := some "explicit-id", path := some "/nb/a.ipynb" }

/-- A request with no path and no `env` hints. -/
def kwEmpty : Kwargs := {}

/-- A request whose only path hint is `env["JPY_SESSION_NAME"]`. -/
def kwEnvOnly : Kwargs := { env := some [("JPY_SESSION_NAME", "nb.ipynb")] }

/-- A registry holding a live kernel under the identity `plainSys` proposes
for `/nb/a.ipynb` with kernel name `python3`. -/
def stAlive : StickyState :=
  { kernels := [("/nb/a.ipynb|python3", { is_alive := some true })], root_dir := none }

/-- The same registry entry, but its liveness probe raises. -/
def stRaises : StickyState :=
  { kernels := [("/nb/a.ipynb|python3", { is_alive := none })], root_dir := none }

/-- The same registry entry, but the probe reports not-alive. -/
def stDead : StickyState :=
  { kernels := [("/nb/a.ipynb|python3", { is_alive := some false })], root_dir := none }

/-- An empty registry. -/
def stEmpty : StickyState := { kernels := [], root_dir := none }

/-! ## Witnesses -/

/-- Witness for C1 at a concrete request and registry. -/
theorem reuse_when_registered_alive_witness :
    start_kernel plainSys stAlive kwA
      = StartAction.reuse
          (_propose_id plainSys (requestPath plainSys stAlive kwA)
            (kwA.kernel_name.getD "python3")) :=
  (reuse_when_registered_alive plainSys stAlive kwA { is_alive := some true }
    rfl (by decide) (by decide) rfl).1

/-- Witness for C2 at a concrete request whose liveness probe raises. -/
theorem liveness_failure_treated_as_alive_witness :
    start_kernel_async plainSys stRaises kwA
      = StartAction.reuse
          (_propose_id plainSys (requestPath plainSys stRaises kwA)
            (kwA.kernel_name.getD "python3")) :=
  (liveness_failure_treated_as_alive plainSys stRaises kwA { is_alive := none }
    rfl (by decide) (by decide) rfl).2

/-- Witness for C3 at a concrete request with an explicit override. -/
theorem explicit_kernel_id_bypasses_reuse_witness :
    start_kernel plainSys stAlive kwAOverride
      = StartAction.delegate (some "explicit-id")
          (rewrittenKwargs plainSys stAlive kwAOverride) :=
  (explicit_kernel_id_bypasses_reuse plainSys stAlive kwAOverride "explicit-id" rfl).1

/-- Witness for C4 at a concrete request over a dead registry entry. -/
theorem dead_or_absent_starts_under_proposed_id_witness :
    start_kernel plainSys stDead kwA
      = StartAction.delegate
          (some (_propose_id plainSys (requestPath plainSys stDead kwA)
            (kwA.kernel_name.getD "python3")))
          (rewrittenKwargs plainSys stDead kwA) :=
  ((dead_or_absent_starts_under_proposed_id plainSys stDead kwA rfl (by decide)).1
    { is_alive := some false } (by decide) rfl).1

/-- Witness for C5 at two concrete requests differing in registry state and
`env` entries but agreeing on path, kernel name and namespace. -/
theorem proposed_id_depends_only_on_path_kernel_ns_witness :
    _propose_id plainSys (requestPath plainSys stAlive kwA) (kwA.kernel_name.getD "python3")
      = _propose_id plainSys (requestPath plainSys stDead kwAEnv)
          (kwAEnv.kernel_name.getD "python3") :=
  proposed_id_depends_only_on_path_kernel_ns plainSys plainSys stAlive stDead kwA kwAEnv
    rfl rfl (by decide) rfl

/-- Witness for C7: the `JPY_SESSION_NAME` fallback fires on a concrete
request, and a concrete request with no path hints delegates unchanged. -/
theorem pick_path_precedence_and_empty_no_reuse_witness :
    _pick_path_from_kwargs kwEnvOnly = "nb.ipynb"
    ∧ start_kernel plainSys stEmpty kwEmpty = StartAction.delegate none kwEmpty :=
  ⟨(pick_path_precedence_and_empty_no_reuse plainSys stEmpty kwEnvOnly).2.1
      (Or.inl rfl) "nb.ipynb" (by decide) (by decide),
    ((pick_path_precedence_and_empty_no_reuse plainSys stEmpty kwEmpty).2.2.2.2 rfl).1⟩

/-- Witness for C8: an absent variable and a malformed variable both fall
back to the default namespace on concrete environments. -/
theorem namespace_per_call_with_default_fallback_witness :
    _namespace plainSys = DEFAULT_NAMESPACE ∧ _namespace badNsSys = DEFAULT_NAMESPACE :=
  ⟨(namespace_per_call_with_default_fallback plainSys).1 rfl,
    (namespace_per_call_with_default_fallback badNsSys).2.1 "not-a-uuid" (by decide) rfl⟩

/-- Witness for C9 at two concrete case-variant raw paths on the Windows
filesystem model. -/
theorem case_variants_collapse_witness :
    _abs_norm ntFS none "A.ipynb" = _abs_norm ntFS none "a.ipynb" :=
  (case_variants_collapse ntFS none "A.ipynb" "a.ipynb" rfl (fun a b h => h)
    (by decide) (by decide) (by decide)).1

end DarkPyonix
